import Mathlib

/-!
Verification of the lightc compiler front end (lexer tokens, shared type
algebra, symbol table, and above all the type checker in
`crates/type_checker/src/lib.rs`) against its natural-language
specification.  The Rust sources are embedded shallowly: the type checker
becomes a fuel-indexed total function threading an explicit symbol table,
`Result<_, String>` becomes a three-way outcome that also records Rust
panics (`unreachable!`, `unwrap` on `None`, `todo!`), and machine integers
become `Nat`/`Int` with explicit range checks.
-/

set_option maxHeartbeats 1000000

namespace Lightc

/-- Operator enum from `crates/common/src/lib.rs` (`pub enum Operator`). -/
inductive Op
  | add | addEq | and | assign | bitAnd | bitOr | bitXor | dec | div | divEq
  | eq | gt | gtEq | inc | lt | ltEq | mul | mulEq | not | notEq | or | pow
  | retType | sub | subEq
deriving DecidableEq

/-- Display impl for `Operator` from `crates/common/src/lib.rs`. -/
def Op.display : Op → String
  | .add => "+"
  | .addEq => "+="
  | .assign => "="
  | .and => "&&"
  | .bitAnd => "&"
  | .bitOr => "|"
  | .bitXor => "^"
  | .dec => "--"
  | .div => "/"
  | .divEq => "/="
  | .eq => "=="
  | .gt => ">"
  | .gtEq => ">="
  | .inc => "++"
  | .lt => "<"
  | .ltEq => "<="
  | .mul => "*"
  | .mulEq => "*="
  | .not => "!"
  | .notEq => "!="
  | .or => "||"
  | .pow => "**"
  | .retType => "->"
  | .sub => "-"
  | .subEq => "-="

/-- Type algebra from `crates/common/src/lib.rs` (`pub enum Type`); the Rust
`Box<Type>` indirection and `usize` length become a direct sub-term and a
`Nat`. -/
inductive Ty
  | int8 | int16 | int32 | int64
  | uint8 | uint16 | uint32 | uint64
  | float | double | bool | char | void
  | array (elem : Ty) (size : Nat)
  | comp (name : String)
deriving DecidableEq

/-- Display impl for `Type` from `crates/common/src/lib.rs`: the debug name
lowercased, except `Comp` which prints its payload. -/
def Ty.display : Ty → String
  | .int8 => "int8"
  | .int16 => "int16"
  | .int32 => "int32"
  | .int64 => "int64"
  | .uint8 => "uint8"
  | .uint16 => "uint16"
  | .uint32 => "uint32"
  | .uint64 => "uint64"
  | .float => "float"
  | .double => "double"
  | .bool => "bool"
  | .char => "char"
  | .void => "void"
  | .array t n => "array(" ++ t.display ++ ", " ++ toString n ++ ")"
  | .comp s => s

/-- `Type::resolve_type` from `crates/common/src/lib.rs` lines 99-120. -/
def Ty.resolveType (ty : String) : Ty :=
  if ty = "int8" then .int8
  else if ty = "int16" then .int16
  else if ty = "int32" then .int32
  else if ty = "int64" then .int64
  else if ty = "uint8" then .uint8
  else if ty = "uint16" then .uint16
  else if ty = "uint32" then .uint32
  else if ty = "uint64" then .uint64
  else if ty = "float" then .float
  else if ty = "double" then .double
  else if ty = "bool" then .bool
  else if ty = "char" then .char
  else if ty = "void" then .void
  else if ty = "int" then .int32
  else if ty = "uint" then .uint32
  else .comp ty

/-- The fifteen strings `Type::resolve_type` maps to primitive variants. -/
def primTypeNames : List String :=
  ["int8", "int16", "int32", "int64", "uint8", "uint16", "uint32", "uint64",
   "float", "double", "bool", "char", "void", "int", "uint"]

/-- `impl Default for Type` from `crates/common/src/lib.rs` lines 142-146. -/
def Ty.defaultTy : Ty := .void

/-- Unwrap of `Option<&Type>` with `unwrap_or_default` as the checker does
throughout. -/
def tyD (o : Option Ty) : Ty := o.getD Ty.defaultTy

/-- Modelled from the spec: the `int_types!` macro (macros.rs is not under
src/); the spec's integer types are `Int8..UInt64`. -/
def Ty.isInt : Ty → Bool
  | .int8 | .int16 | .int32 | .int64
  | .uint8 | .uint16 | .uint32 | .uint64 => true
  | _ => false

/-- Modelled from the spec: the `float_types!` macro (macros.rs is not under
src/); the spec's float types are `Float` and `Double`. -/
def Ty.isFloat : Ty → Bool
  | .float | .double => true
  | _ => false

/-- Modelled from the spec: the `numeric_types!` macro (macros.rs is not
under src/); numeric = integer or float types. -/
def Ty.isNumeric (t : Ty) : Bool := t.isInt || t.isFloat

/-- Stand-in for an `f64`/`f32` payload.  The checker never computes with
float values (it only stores, retags or rejects them), so a float literal
is carried as an exact pair numerator/denominator and the f64-to-f32
narrowing performed by `convert_num!` keeps the payload unchanged. -/
structure FloatVal where
  num : Int
  den : Nat
deriving DecidableEq

/-- Function prototype used by `visit_fn` (name, positional args as
name/type pairs, declared return type); per the spec a prototype also
carries an extern flag, which the checker never reads, so it is omitted. -/
structure Proto where
  name : String
  args : List (String × Ty)
  retTy : Ty

mutual

/-- Literal values from `common::Literal` as the type checker consumes
them: byte-precise integers (signed as `Int`, unsigned as `Nat`), float
payloads as `FloatVal`, and array literals holding element nodes plus an
optional inner type. -/
inductive Lit
  | int8L (v : Int)
  | int16L (v : Int)
  | int32L (v : Int)
  | int64L (v : Int)
  | uint8L (v : Nat)
  | uint16L (v : Nat)
  | uint32L (v : Nat)
  | uint64L (v : Nat)
  | floatL (v : FloatVal)
  | doubleL (v : FloatVal)
  | boolL (v : Bool)
  | charL (v : Char)
  | arrayL (elements : List AstNode) (innerTy : Option Ty)

/-- AST nodes per the spec's node algebra (the `ast` crate itself is not
under src/): every expression variant optionally carries the resolved
type populated by the checker; statement variants (`For`, `Let`, `Fn`,
`Struct`) carry none, so their `ty()` is `None`. -/
inductive AstNode
  | lit (value : Lit) (ty : Option Ty)
  | ident (name : String) (ty : Option Ty)
  | binop (op : Op) (lhs rhs : AstNode) (ty : Option Ty)
  | unop (op : Op) (rhs : AstNode) (ty : Option Ty)
  | call (name : String) (args : List AstNode) (ty : Option Ty)
  | index (binding idx : AstNode) (ty : Option Ty)
  | cond (condExpr thenBlock : AstNode) (elseBlock : Option AstNode) (ty : Option Ty)
  | block (list : List AstNode) (ty : Option Ty)
  | forStmt (startName : String) (startAntn : Ty) (startExpr : Option AstNode)
      (condExpr stepExpr body : AstNode)
  | letStmt (name : String) (antn : Ty) (init : Option AstNode)
  | fnStmt (proto : Proto) (body : Option AstNode)
  | structStmt (name : String) (fields : List AstNode) (methods : List AstNode)

end

/-- `AstNode::ty()`: the optional resolved type of a node (statement nodes
have none). -/
def AstNode.ty : AstNode → Option Ty
  | .lit _ t => t
  | .ident _ t => t
  | .binop _ _ _ t => t
  | .unop _ _ t => t
  | .call _ _ t => t
  | .index _ _ t => t
  | .cond _ _ _ t => t
  | .block _ t => t
  | .forStmt .. => none
  | .letStmt .. => none
  | .fnStmt .. => none
  | .structStmt .. => none

/-- Modelled from the spec: `AstNode::is_num_literal` lives in the absent
`ast` crate; per the spec a "numeric literal" is an integer or floating
literal node. -/
def AstNode.isNumLiteral : AstNode → Bool
  | .lit v _ =>
    match v with
    | .arrayL .. => false
    | .boolL _ => false
    | .charL _ => false
    | _ => true
  | _ => false

/-- The `matches!` test at the top of `visit_binop`: assignment LHS must be
an `Ident` or `Index` node. -/
def AstNode.isAssignable : AstNode → Bool
  | .ident .. => true
  | .index .. => true
  | _ => false

/-- Modelled from the spec: Display for literals is in the absent `ast`
crate and is only used inside two diagnostic strings no claim depends on,
so the rendering is abbreviated. -/
def Lit.display : Lit → String
  | .int8L v | .int16L v | .int32L v | .int64L v => toString v
  | .uint8L v | .uint16L v | .uint32L v | .uint64L v => toString v
  | .floatL v | .doubleL v => toString v.num ++ "/" ++ toString v.den
  | .boolL v => toString v
  | .charL v => String.mk [v]
  | .arrayL .. => "[array]"

/-- Modelled from the spec: Display for AST nodes (absent `ast` crate),
abbreviated like `Lit.display`. -/
def AstNode.display : AstNode → String
  | .lit v _ => v.display
  | .ident n _ => n
  | _ => "<expr>"

/-- Symbol payloads from `crates/symbol_table/src/symbol.rs` (`AssocData`).
The checker (`visit_call`, `visit_fn`) reads function argument and return
types as `Type`s, so `FnData` is embedded with `Ty` fields. -/
inductive AssocData
  | fnD (args : List (String × Ty)) (retTy : Ty) (isExt : Bool)
  | varD (ty : Ty)
  | structD (fields : List (String × String)) (methods : Option (List String))
  | typeD
deriving DecidableEq

/-- `Symbol` from `crates/symbol_table/src/symbol.rs`. -/
structure Symbol where
  name : String
  data : AssocData
deriving DecidableEq

/-- Symbol for a new variable (`Symbol::new_var`, the `From<(&str, &Type)>`
impl in symbol.rs). -/
def Symbol.newVar (name : String) (ty : Ty) : Symbol :=
  ⟨name, .varD ty⟩

/-- First symbol bound to `name` in one scope (innermost binding wins since
`insert` prepends). -/
def scopeFind (s : List (String × Symbol)) (name : String) : Option Symbol :=
  (s.find? fun p => p.1 = name).map Prod.snd

/-- Search scopes innermost to outermost. -/
def scopesGet : List (List (String × Symbol)) → String → Option Symbol
  | [], _ => none
  | s :: rest, name =>
    match scopeFind s name with
    | some sym => some sym
    | none => scopesGet rest name

/-- Modelled from the spec: the `SymbolTable` container itself is not under
src/ (only symbol.rs is); per spec section 3 it is a stack of scopes, each
a map from name to symbol, with `enter_scope`, `leave_scope`,
`insert` (into the innermost scope, overwriting the same name) and
`get` (searching innermost to outermost). -/
structure SymbolTable where
  scopes : List (List (String × Symbol))
deriving DecidableEq

/-- `SymbolTable::new`: one (global) scope. -/
def SymbolTable.new : SymbolTable := ⟨[[]]⟩

/-- Scope-stack depth of the table. -/
def SymbolTable.depth (st : SymbolTable) : Nat := st.scopes.length

/-- `enter_scope`: push a fresh innermost scope. -/
def SymbolTable.enterScope (st : SymbolTable) : SymbolTable :=
  ⟨[] :: st.scopes⟩

/-- `leave_scope`: pop the innermost scope. -/
def SymbolTable.leaveScope (st : SymbolTable) : SymbolTable :=
  ⟨st.scopes.tail⟩

/-- `insert`: bind into the innermost scope; prepending makes the newest
binding shadow an older one of the same name, which is the overwrite
behaviour the spec describes. -/
def SymbolTable.insert (st : SymbolTable) (sym : Symbol) : SymbolTable :=
  match st.scopes with
  | [] => ⟨[[(sym.name, sym)]]⟩
  | s :: rest => ⟨((sym.name, sym) :: s) :: rest⟩

/-- `get`: innermost-to-outermost lookup. -/
def SymbolTable.get (st : SymbolTable) (name : String) : Option Symbol :=
  scopesGet st.scopes name

/-- Outcome of a checker step.  `ok` and `error` mirror
`Result<AstNode, String>`; `panic` records a Rust process abort
(`unreachable!`, `unwrap` on `None`, `todo!`).  Every outcome carries the
symbol table as it stands when the step returns (the Rust table is a
`&mut` the caller keeps across errors). -/
inductive Res (α : Type)
  | ok (st : SymbolTable) (val : α)
  | error (st : SymbolTable) (msg : String)
  | panic (st : SymbolTable) (msg : String)

/-- Sequence two checker steps, threading the table; errors and panics
short-circuit exactly like `?` and an unwound panic do in Rust. -/
def Res.bind {α β : Type} : Res α → (SymbolTable → α → Res β) → Res β
  | .ok st a, f => f st a
  | .error st m, _ => .error st m
  | .panic st m, _ => .panic st m

/-- The `UInt64(v)`-with-hint arm of `visit_lit` (type_checker lib.rs lines
264-279).  The non-numeric-hint rejections are verbatim from the source;
the per-width fit checks expand the `convert_num!` macro, which is not
under src/ and is modelled from the spec ("if the value fits in the hinted
width it is narrowed and retagged; overflow is rejected with `Numeric
literal out of range`").  `u64::try_from` of a `u64` cannot fail, so the
`uint64` arm always succeeds. -/
def narrowU64 (st : SymbolTable) (v : Nat) (hint : Ty) : Res (Lit × Ty) :=
  match hint with
  | .int8 =>
    if v ≤ 127 then .ok st (.int8L (Int.ofNat v), .int8)
    else .error st "Numeric literal out of range"
  | .int16 =>
    if v ≤ 32767 then .ok st (.int16L (Int.ofNat v), .int16)
    else .error st "Numeric literal out of range"
  | .int32 =>
    if v ≤ 2147483647 then .ok st (.int32L (Int.ofNat v), .int32)
    else .error st "Numeric literal out of range"
  | .int64 =>
    if v ≤ 9223372036854775807 then .ok st (.int64L (Int.ofNat v), .int64)
    else .error st "Numeric literal out of range"
  | .uint8 =>
    if v ≤ 255 then .ok st (.uint8L v, .uint8)
    else .error st "Numeric literal out of range"
  | .uint16 =>
    if v ≤ 65535 then .ok st (.uint16L v, .uint16)
    else .error st "Numeric literal out of range"
  | .uint32 =>
    if v ≤ 4294967295 then .ok st (.uint32L v, .uint32)
    else .error st "Numeric literal out of range"
  | .uint64 => .ok st (.uint64L v, .uint64)
  | .float => .error st "Literal is an integer in a float context"
  | .double => .error st "Literal is an integer in a float context"
  | .bool => .error st "Literal is an integer in a bool context"
  | .char => .error st "Literal is an integer in a char context"
  | .array _ _ => .error st "Literal is an integer in an array context"
  | .void => .error st "Literal is an integer in a void context"
  | .comp _ => .error st "Literal is an integer in a compound context"

/-- The `Float(v)`-with-hint arm of `visit_lit` (type_checker lib.rs lines
280-288).  The f64-to-f32 narrowing of `convert_num!` keeps the payload
(see `FloatVal`); the catch-all `unreachable!("float conversion error")`
covers the `Void` and `Comp` hints. -/
def narrowF64 (st : SymbolTable) (v : FloatVal) (hint : Ty) : Res (Lit × Ty) :=
  match hint with
  | .float => .ok st (.floatL v, .float)
  | .double => .ok st (.doubleL v, .double)
  | .int8 | .int16 | .int32 | .int64
  | .uint8 | .uint16 | .uint32 | .uint64 =>
    .error st "Literal is a float in an integer context"
  | .bool => .error st "Literal is a float in a bool context"
  | .char => .error st "Literal is a float in a char context"
  | .array _ _ => .error st "Literal is a float in an array context"
  | _ => .panic st "float conversion error"

/-- The uninitialized-variable arm of `check_var_init` (lines 102-118).
The `init_literal!` macro is not under src/ and is modelled from the spec:
a typed zero literal per annotation, zero-filled arrays, `unreachable!`
for `Void` and `todo!` for `Comp` (both encoded as the panic side). -/
def defaultInit : Ty → Sum String AstNode
  | .int8 => .inr (.lit (.int8L 0) (some .int8))
  | .int16 => .inr (.lit (.int16L 0) (some .int16))
  | .int32 => .inr (.lit (.int32L 0) (some .int32))
  | .int64 => .inr (.lit (.int64L 0) (some .int64))
  | .uint8 => .inr (.lit (.uint8L 0) (some .uint8))
  | .uint16 => .inr (.lit (.uint16L 0) (some .uint16))
  | .uint32 => .inr (.lit (.uint32L 0) (some .uint32))
  | .uint64 => .inr (.lit (.uint64L 0) (some .uint64))
  | .float => .inr (.lit (.floatL ⟨0, 1⟩) (some .float))
  | .double => .inr (.lit (.doubleL ⟨0, 1⟩) (some .double))
  | .char => .inr (.lit (.charL (Char.ofNat 0)) (some .char))
  | .bool => .inr (.lit (.boolL false) (some .bool))
  | .array t n =>
    match defaultInit t with
    | .inl m => .inl m
    | .inr z => .inr (.lit (.arrayL (List.replicate n z) (some t)) (some (.array t n)))
  | .void => .inl "void type for variable initialization annotation"
  | .comp _ => .inl "not yet implemented"

/-- Operator-legality table from the tail of `visit_binop` (lines
357-407): given the operator and the (already equal-checked) side types,
either the diagnostic or the resulting expression type. -/
def opResultTy (op : Op) (lTy rTy : Ty) : Sum String Ty :=
  if op = .and ∨ op = .or then
    if lTy ≠ .bool ∨ rTy ≠ .bool then
      .inl ("Expected bools on either side of `" ++ op.display ++ "`, got lhs: `"
        ++ lTy.display ++ "`, rhs: `" ++ rTy.display ++ "`")
    else .inr .bool
  else if op = .eq ∨ op = .notEq then
    if (lTy.isNumeric || lTy = .bool || lTy = .char)
        && (rTy.isNumeric || rTy = .bool || rTy = .char) then .inr .bool
    else
      .inl ("Invalid type combination found in `" ++ op.display
        ++ "` operation: (lhs: `" ++ lTy.display ++ "`, rhs: `" ++ rTy.display ++ "`)")
  else if op = .gt ∨ op = .gtEq ∨ op = .lt ∨ op = .ltEq then
    if (lTy.isNumeric || lTy = .char) && (rTy.isNumeric || rTy = .char) then .inr .bool
    else
      .inl ("Invalid type combination found in `" ++ op.display
        ++ "` operation: (lhs: `" ++ lTy.display ++ "`, rhs: `" ++ rTy.display ++ "`)")
  else if op = .add ∨ op = .div ∨ op = .mul ∨ op = .pow ∨ op = .sub
      ∨ op = .bitAnd ∨ op = .bitXor ∨ op = .bitOr then
    if lTy.isNumeric && rTy.isNumeric then .inr lTy
    else
      .inl ("Invalid type combination found in `" ++ op.display
        ++ "` operation: (lhs: `" ++ lTy.display ++ "`, rhs: `" ++ rTy.display ++ "`)")
  else .inr .void

/-- Shared tail of `visit_binop` (lines 350-409): the sides' types must be
equal, then the operator table decides the node type. -/
def binopFinish (st : SymbolTable) (op : Op) (clhs : AstNode) (lTy : Ty)
    (crhs : AstNode) (rTy : Ty) : Res AstNode :=
  if lTy ≠ rTy then
    .error st ("Mismatched types in binop: `" ++ lTy.display ++ "` != `" ++ rTy.display ++ "`")
  else
    match opResultTy op lTy rTy with
    | .inl msg => .error st msg
    | .inr ty => .ok st (.binop op clhs crhs (some ty))

/-- The `try_for_each` over zipped formal/actual types at the end of
`visit_call` (lines 460-472): first mismatch produces the diagnostic;
like Rust's `zip` it stops at the shorter list. -/
def argsMismatch (name : String) : List Ty → List AstNode → Nat → Option String
  | faTy :: fs, a :: rest, idx =>
    let caTy := tyD a.ty
    if faTy ≠ caTy then
      some ("Type mismatch in arg " ++ toString (idx + 1) ++ " of call to `" ++ name
        ++ "()`: `" ++ faTy.display ++ "` != `" ++ caTy.display ++ "`")
    else argsMismatch name fs rest (idx + 1)
  | _, _, _ => none

/-- The argument-insertion loop at the top of `visit_fn` (lines 198-200). -/
def insertArgs (st : SymbolTable) : List (String × Ty) → SymbolTable
  | [] => st
  | a :: rest => insertArgs (st.insert (Symbol.newVar a.1 a.2)) rest

/-- Tail of `visit_fn` after the prototype was fixed up (lines 218-231):
`fn_entry.ret_ty()` is read again for the body/return comparison — a
non-function entry is the `unreachable!` in `Symbol::ret_ty` — the
comparison is skipped for `Void` returns and for `main`, and the scope is
left only on this success path. -/
def fnFinish2 (st : SymbolTable) (proto2 : Proto) (fnEntry : Symbol)
    (bodyNode : AstNode) (bodyTy : Ty) : Res AstNode :=
  match fnEntry.data with
  | .fnD _ fret _ =>
    if fret ≠ bodyTy ∧ fret ≠ .void ∧ proto2.name ≠ "main" then
      .error st ("Function `" ++ proto2.name ++ "` should return type `" ++ fret.display
        ++ "` but last statement is `" ++ bodyTy.display ++ "`")
    else .ok (st.leaveScope) (.fnStmt proto2 (some bodyNode))
  | _ => .panic st "expected symbol to be a function"

/-- The prototype fix-up of `visit_fn` (lines 205-216): `main` must not
annotate a return type (checked against the prototype before
`fn_entry.ret_ty()` is ever read) and is overwritten to `Void`; any other
function's prototype return type is overwritten from its symbol-table
entry (the `unreachable!` in `Symbol::ret_ty` if that entry is not a
function). -/
def fnFinish (st : SymbolTable) (proto : Proto) (fnEntry : Symbol)
    (bodyNode : AstNode) (bodyTy : Ty) : Res AstNode :=
  if proto.name = "main" then
    if proto.retTy ≠ .void then
      .error st ("main()'s return value shouldn't be annotated. Found `"
        ++ proto.retTy.display ++ "`")
    else fnFinish2 st { proto with retTy := .void } fnEntry bodyNode bodyTy
  else
    match fnEntry.data with
    | .fnD _ fret _ => fnFinish2 st { proto with retTy := fret } fnEntry bodyNode bodyTy
    | _ => .panic st "expected symbol to be a function"

mutual

/-- The type checker's visitor dispatch (`check_node` / `visit_node` /
the `visit_*` methods of `impl AstVisitor for TypeChecker`), as one
fuel-indexed total function.  The hint is the explicit parameter the
spec's design notes recommend in place of the `self.hint` field; the
symbol table is threaded through every step.  Fuel only ever runs out on
ASTs deeper than the fuel, never on the programs the theorems use. -/
def checkNode : Nat → SymbolTable → Option Ty → AstNode → Res AstNode
  | 0, st, _, _ => .panic st "fuel exhausted"
  | Nat.succ fuel, st, hint, node =>
    match node with
    | .lit v _ =>
      match hint with
      | some h =>
        match v with
        | .int8L n => .ok st (.lit (.int8L n) (some .int8))
        | .int16L n => .ok st (.lit (.int16L n) (some .int16))
        | .int32L n => .ok st (.lit (.int32L n) (some .int32))
        | .int64L n => .ok st (.lit (.int64L n) (some .int64))
        | .uint8L n => .ok st (.lit (.uint8L n) (some .uint8))
        | .uint16L n => .ok st (.lit (.uint16L n) (some .uint16))
        | .uint32L n => .ok st (.lit (.uint32L n) (some .uint32))
        | .uint64L n =>
          (narrowU64 st n h).bind fun st1 p => .ok st1 (.lit p.1 (some p.2))
        | .floatL f =>
          (narrowF64 st f h).bind fun st1 p => .ok st1 (.lit p.1 (some p.2))
        | .doubleL f => .ok st (.lit (.doubleL f) (some .double))
        | .boolL b => .ok st (.lit (.boolL b) (some .bool))
        | .charL c => .ok st (.lit (.charL c) (some .char))
        | .arrayL els ity =>
          (checkLitArray fuel st (.arrayL els ity) (some h)).bind fun st1 p =>
            .ok st1 (.lit p.1 (some p.2))
      | none =>
        match v with
        | .int32L n => .ok st (.lit (.int32L n) (some .int32))
        | .uint64L n =>
          if n ≤ 2147483647 then .ok st (.lit (.int32L (Int.ofNat n)) (some .int32))
          else .error st "Numeric literal out of range"
        | .floatL f => .ok st (.lit (.floatL f) (some .float))
        | .boolL b => .ok st (.lit (.boolL b) (some .bool))
        | .charL c => .ok st (.lit (.charL c) (some .char))
        | .arrayL els ity =>
          (checkLitArray fuel st (.arrayL els ity) none).bind fun st1 p =>
            .ok st1 (.lit p.1 (some p.2))
        | x => .panic st ("numeric conversion error for " ++ x.display)
    | .ident name _ =>
      match st.get name with
      | none => .error st ("Unknown variable: `" ++ name ++ "`")
      | some sym =>
        match sym.data with
        | .varD t => .ok st (.ident name (some t))
        | _ => .panic st "expected symbol to be a variable"
    | .binop op lhs rhs _ =>
      if op = .assign ∧ lhs.isAssignable = false then
        .error st "Expected LHS to be a variable for assignment"
      else if lhs.isNumLiteral then
        (checkNode fuel st none rhs).bind fun st1 crhs =>
          (checkNode fuel st1 (some (tyD crhs.ty)) lhs).bind fun st2 clhs =>
            binopFinish st2 op clhs (tyD clhs.ty) crhs (tyD crhs.ty)
      else
        (checkNode fuel st none lhs).bind fun st1 clhs =>
          (checkNode fuel st1 (some (tyD clhs.ty)) rhs).bind fun st2 crhs =>
            binopFinish st2 op clhs (tyD clhs.ty) crhs (tyD crhs.ty)
    | .unop op rhs _ =>
      (checkNode fuel st none rhs).bind fun st1 crhs =>
        if (tyD crhs.ty).isNumeric then .ok st1 (.unop op crhs (some (tyD crhs.ty)))
        else
          .error st1 ("Expected numeric type in unary operation `" ++ op.display
            ++ "`, got rhs: `" ++ (tyD crhs.ty).display ++ "`")
    | .call name args _ =>
      match st.get name with
      | none => .error st ("Call to undefined function: `" ++ name ++ "`")
      | some fnEntry =>
        match fnEntry.data with
        | .fnD fargs retTy _ =>
          if (fargs.map Prod.snd).length ≠ args.length then
            .error st ("Call to `" ++ name ++ "()` takes "
              ++ toString (fargs.map Prod.snd).length ++ " args and "
              ++ toString args.length ++ " were given")
          else
            (checkArgs fuel st (fargs.map Prod.snd) args).bind fun st1 chkdArgs =>
              match argsMismatch name (fargs.map Prod.snd) chkdArgs 0 with
              | some msg => .error st1 msg
              | none => .ok st1 (.call name chkdArgs (some retTy))
        | _ => .panic st "expected symbol to be a function"
    | .index binding idx _ =>
      (checkNode fuel st none binding).bind fun st1 cbind =>
        match tyD cbind.ty with
        | .array t _ =>
          (checkNode fuel st1 (some .int32) idx).bind fun st2 cidx =>
            if (tyD cidx.ty).isInt = false then
              .error st2 ("Array index must be an `int`, found `"
                ++ (tyD cidx.ty).display ++ "`")
            else if tyD cidx.ty ≠ .int32 then
              .error st2 "Index must be an int32 (for now)"
            else .ok st2 (.index cbind cidx (some t))
        | t => .error st1 ("Can't index `" ++ t.display ++ "`")
    | .cond c tb eb _ =>
      (checkNode fuel st none c).bind fun st1 cc =>
        if tyD cc.ty ≠ .bool then .error st1 "Conditional should always be a bool"
        else
          (checkNode fuel st1 none tb).bind fun st2 ctb =>
            match eb with
            | none => .ok st2 (.cond cc ctb none (some (tyD ctb.ty)))
            | some e =>
              (checkNode fuel st2 (some (tyD ctb.ty)) e).bind fun st3 ce =>
                if tyD ctb.ty ≠ tyD ce.ty then
                  .error st3 ("Both arms of conditional must be the same type: `then` == `"
                    ++ (tyD ctb.ty).display ++ "`; `else` == `" ++ (tyD ce.ty).display ++ "`")
                else .ok st3 (.cond cc ctb (some ce) (some (tyD ctb.ty)))
    | .block list _ =>
      (checkSeq fuel (st.enterScope) list).bind fun st1 chkdList =>
        .ok (st1.leaveScope)
          (.block chkdList (some (match chkdList.getLast? with
            | some n => tyD n.ty
            | none => Ty.void)))
    | .forStmt sName sAntn sExpr condE stepE body =>
      (checkVarInit fuel ((st.enterScope).insert (Symbol.newVar sName sAntn))
          sName sExpr sAntn "for statement").bind fun st1 startExpr =>
        (checkNode fuel st1 none condE).bind fun st2 cCond =>
          if tyD cCond.ty ≠ .bool then
            .error st2 "For loop conditional should always be a bool"
          else
            (checkNode fuel st2 (some sAntn) stepE).bind fun st3 cStep =>
              if tyD cStep.ty ≠ sAntn then
                .error st3 ("Step type mismatch in for statement. Step is `"
                  ++ (tyD cStep.ty).display ++ "` but `" ++ sName ++ "` is `"
                  ++ sAntn.display ++ "`")
              else
                (checkNode fuel st3 none body).bind fun st4 cBody =>
                  .ok (st4.leaveScope)
                    (.forStmt sName sAntn (some startExpr) cCond cStep cBody)
    | .letStmt name antn init =>
      (checkVarInit fuel (st.insert (Symbol.newVar name antn))
          name init antn "let statement").bind fun st1 initNode =>
        .ok st1 (.letStmt name antn (some initNode))
    | .fnStmt proto body =>
      match st.get proto.name with
      | none => .panic st ("missing symbol table entry for function: " ++ proto.name)
      | some fnEntry =>
        match body with
        | none => .ok st (.fnStmt proto none)
        | some bodyN =>
          (checkNode fuel (insertArgs (st.enterScope) proto.args) none bodyN).bind
            fun st1 bodyNode =>
              fnFinish st1 proto fnEntry bodyNode (tyD bodyNode.ty)
    | .structStmt name fields methods =>
      (checkSeq fuel st fields).bind fun st1 cf =>
        (checkSeq fuel st1 methods).bind fun st2 cm =>
          .ok st2 (.structStmt name cf cm)

/-- `check_lit_array` (lines 47-82): the literal must be an array
(`unreachable!` otherwise), the hint is `unwrap`ped (a `None` hint is the
Rust panic the `XXX` comment wonders about) and must be an array type,
the literal must fit (the length is cast through `u32` as the source
does), then the elements are checked. -/
def checkLitArray : Nat → SymbolTable → Lit → Option Ty → Res (Lit × Ty)
  | 0, st, _, _ => .panic st "fuel exhausted"
  | Nat.succ fuel, st, lit, tyHint =>
    match lit with
    | .arrayL elements _ =>
      match tyHint with
      | none => .panic st "called Option::unwrap() on a None value"
      | some hintTy =>
        match hintTy with
        | .array ty size =>
          if elements.length % 4294967296 > size then
            .error st ("Array literal too big in assignment: `"
              ++ toString elements.length ++ "` > `" ++ toString size ++ "`")
          else
            (checkElems fuel st ty elements).bind fun st1 chkd =>
              .ok st1 (.arrayL chkd (some ty), .array ty size)
        | other => .panic st ("array literal has invalid type hint `" ++ other.display ++ "`")
    | _ => .panic st "expected array literal"

/-- The element loop of `check_lit_array` (lines 70-78): each element is
checked with the inner type as hint and must have exactly that type. -/
def checkElems : Nat → SymbolTable → Ty → List AstNode → Res (List AstNode)
  | 0, st, _, _ => .panic st "fuel exhausted"
  | Nat.succ fuel, st, ty, els =>
    match els with
    | [] => .ok st []
    | el :: rest =>
      (checkNode fuel st (some ty) el).bind fun st1 elNode =>
        if tyD elNode.ty ≠ ty then
          .error st1 ("Array literal's element wrong type: `" ++ elNode.display
            ++ "` isn't a `" ++ ty.display ++ "`")
        else
          (checkElems fuel st1 ty rest).bind fun st2 chkd => .ok st2 (elNode :: chkd)

/-- Hint-less node sequencing: the loops of `walk`, `visit_block` and
`visit_struct`, each element checked with no hint. -/
def checkSeq : Nat → SymbolTable → List AstNode → Res (List AstNode)
  | 0, st, _ => .panic st "fuel exhausted"
  | Nat.succ fuel, st, nodes =>
    match nodes with
    | [] => .ok st []
    | n :: rest =>
      (checkNode fuel st none n).bind fun st1 cn =>
        (checkSeq fuel st1 rest).bind fun st2 crest => .ok st2 (cn :: crest)

/-- The argument loop of `visit_call` (lines 451-457): each actual is
checked with the matching formal type as hint. -/
def checkArgs : Nat → SymbolTable → List Ty → List AstNode → Res (List AstNode)
  | 0, st, _, _ => .panic st "fuel exhausted"
  | Nat.succ fuel, st, ftys, args =>
    match ftys, args with
    | faTy :: fs, a :: rest =>
      (checkNode fuel st (some faTy) a).bind fun st1 ca =>
        (checkArgs fuel st1 fs rest).bind fun st2 cas => .ok st2 (ca :: cas)
    | _, _ => .ok st []

/-- `check_var_init` (lines 85-120): a present initializer is checked with
the annotation as hint and must produce exactly the annotated type; an
absent one synthesizes the default literal. -/
def checkVarInit : Nat → SymbolTable → String → Option AstNode → Ty → String → Res AstNode
  | 0, st, _, _, _, _ => .panic st "fuel exhausted"
  | Nat.succ fuel, st, name, init, antn, caller =>
    match init with
    | some initN =>
      (checkNode fuel st (some antn) initN).bind fun st1 initNode =>
        if antn ≠ tyD initNode.ty then
          .error st1 ("Types don't match in " ++ caller ++ ". `" ++ name
            ++ "` annotated with `" ++ antn.display ++ "` but initial value is `"
            ++ (tyD initNode.ty).display ++ "`")
        else .ok st1 initNode
    | none =>
      match defaultInit antn with
      | .inl msg => .panic st msg
      | .inr node => .ok st node

end

/-- `TypeChecker::walk`: check every top-level node in order.  The Rust
`walk` visits each node with whatever hint is left in `self.hint`; only
`visit_lit` ever reads the hint and every path into it sets the hint
first, so for the declaration sequences produced by the parser this is the
hint-less sequencing. -/
def walkChecker (fuel : Nat) (st : SymbolTable) (nodes : List AstNode) :
    Res (List AstNode) :=
  checkSeq fuel st nodes

/-- Binary-operation checking procedure exactly as claim C3 words it: when
exactly one side is a numeric literal the non-literal side is checked
first with no hint and the literal side second with the other's type as
hint; otherwise — including when both sides are numeric literals — the
LHS is checked first with no hint and the RHS second with the LHS's type
as hint.  The shared tail (`binopFinish`) is the checker's own. -/
def visitBinopClaim (fuel : Nat) (st : SymbolTable) (op : Op) (lhs rhs : AstNode) :
    Res AstNode :=
  if lhs.isNumLiteral && !rhs.isNumLiteral then
    (checkNode fuel st none rhs).bind fun st1 crhs =>
      (checkNode fuel st1 (some (tyD crhs.ty)) lhs).bind fun st2 clhs =>
        binopFinish st2 op clhs (tyD clhs.ty) crhs (tyD crhs.ty)
  else
    (checkNode fuel st none lhs).bind fun st1 clhs =>
      (checkNode fuel st1 (some (tyD clhs.ty)) rhs).bind fun st2 crhs =>
        binopFinish st2 op clhs (tyD clhs.ty) crhs (tyD crhs.ty)

/-- Binary-operation checking procedure as the source actually orders it
(`visit_binop` lines 336-348): the branch looks only at whether the LHS
is a numeric literal, so two numeric literals also take the
RHS-first path. -/
def visitBinopAmended (fuel : Nat) (st : SymbolTable) (op : Op) (lhs rhs : AstNode) :
    Res AstNode :=
  if lhs.isNumLiteral then
    (checkNode fuel st none rhs).bind fun st1 crhs =>
      (checkNode fuel st1 (some (tyD crhs.ty)) lhs).bind fun st2 clhs =>
        binopFinish st2 op clhs (tyD clhs.ty) crhs (tyD crhs.ty)
  else
    (checkNode fuel st none lhs).bind fun st1 clhs =>
      (checkNode fuel st1 (some (tyD clhs.ty)) rhs).bind fun st2 crhs =>
        binopFinish st2 op clhs (tyD clhs.ty) crhs (tyD crhs.ty)

/-- Largest `u64` value each integer width accepts, i.e. the ranges the
`convert_num!` expansion checks for a `u64` source (a `u64` is never
negative, so only the upper bounds matter). -/
def intWidthMax : Ty → Option Nat
  | .int8 => some 127
  | .int16 => some 32767
  | .int32 => some 2147483647
  | .int64 => some 9223372036854775807
  | .uint8 => some 255
  | .uint16 => some 65535
  | .uint32 => some 4294967295
  | .uint64 => some 18446744073709551615
  | _ => none

/-- The retagged literal `convert_num!` produces when a `u64` value fits
the hinted integer width. -/
def narrowedLit : Ty → Nat → Lit
  | .int8, v => .int8L (Int.ofNat v)
  | .int16, v => .int16L (Int.ofNat v)
  | .int32, v => .int32L (Int.ofNat v)
  | .int64, v => .int64L (Int.ofNat v)
  | .uint8, v => .uint8L v
  | .uint16, v => .uint16L v
  | .uint32, v => .uint32L v
  | _, v => .uint64L v

/-- Numeric value carried by an integer literal, read back as a `Nat`
(u64 view); `None` for non-integer literals. -/
def Lit.natValue : Lit → Option Nat
  | .int8L v | .int16L v | .int32L v | .int64L v => some v.toNat
  | .uint8L v | .uint16L v | .uint32L v | .uint64L v => some v
  | _ => none

/-- Token type of the old lexer exactly as `src/tests/lexer.rs` uses it
(`lightc::lexer::Token`): keywords, identifiers, punctuation,
single-character operators — and integer-literal tokens `Int(f64)` whose
payload is a 64-bit float (`FloatVal` here), not an unsigned 64-bit
integer.  `exKw` stands for the keyword token of an external function
declaration. -/
inductive TestToken
  | exKw
  | fnKw
  | letKw
  | ifKw
  | elseKw
  | ident (s : String)
  | openParen
  | closeParen
  | openBrace
  | closeBrace
  | comma
  | assign
  | op (c : Char)
  | int (v : FloatVal)
deriving DecidableEq

/-- Expected token stream of `test_lexer_full` (src/tests/lexer.rs lines
22-72), transcribed verbatim: the source literals `4`, `36` and `434` are
expected as `Int(4.0)`, `Int(36.0)` and `Int(434.0)`. -/
def testLexerFullExpected : List TestToken :=
  [.exKw, .ident "cos", .openParen, .ident "x", .closeParen,
   .fnKw, .ident "arith", .openParen, .ident "x", .comma, .ident "y", .closeParen,
   .openBrace, .letKw, .ident "result", .assign, .openParen, .ident "x", .op '+',
   .ident "y", .closeParen, .op '*', .int ⟨4, 1⟩, .op '/', .int ⟨4, 1⟩,
   .ident "a", .op '>', .ident "b", .ident "result", .closeBrace,
   .fnKw, .ident "main", .openParen, .closeParen, .openBrace,
   .letKw, .ident "a", .assign, .ident "arith", .openParen, .int ⟨36, 1⟩, .comma,
   .int ⟨434, 1⟩, .closeParen, .ident "printf", .openParen, .ident "a", .closeParen,
   .closeBrace]

/-! ## Basic lemmas about outcomes and the scope stack -/

theorem Res.bind_ok {α β : Type} {r : Res α} {f : SymbolTable → α → Res β}
    {st2 : SymbolTable} {b : β} (h : r.bind f = .ok st2 b) :
    ∃ st1 a, r = .ok st1 a ∧ f st1 a = .ok st2 b := by
  cases r with
  | ok st a => exact ⟨st, a, rfl, h⟩
  | error st m => simp [Res.bind] at h
  | panic st m => simp [Res.bind] at h

theorem SymbolTable.enterScope_depth (st : SymbolTable) :
    st.enterScope.depth = st.depth + 1 := by
  simp [SymbolTable.enterScope, SymbolTable.depth]

theorem SymbolTable.leaveScope_depth (st : SymbolTable) :
    st.leaveScope.depth = st.depth - 1 := by
  simp [SymbolTable.leaveScope, SymbolTable.depth]

theorem SymbolTable.insert_depth {st : SymbolTable} (h : 0 < st.depth) (s : Symbol) :
    (st.insert s).depth = st.depth := by
  match hs : st.scopes with
  | [] => simp [SymbolTable.depth, hs] at h
  | a :: rest => simp [SymbolTable.insert, SymbolTable.depth, hs]

theorem insertArgs_depth {st : SymbolTable} (h : 0 < st.depth)
    (args : List (String × Ty)) : (insertArgs st args).depth = st.depth := by
  induction args generalizing st with
  | nil => rfl
  | cons a rest ih =>
    have h1 := SymbolTable.insert_depth h (Symbol.newVar a.1 a.2)
    rw [insertArgs, ih (by rw [h1]; exact h), h1]

theorem narrowU64_st {st : SymbolTable} {n : Nat} {hTy : Ty} {st2 : SymbolTable}
    {p : Lit × Ty} (e : narrowU64 st n hTy = .ok st2 p) : st2 = st := by
  unfold narrowU64 at e
  split at e <;> (try split at e) <;> (try (injection e with h1 h2; exact h1.symm))
    <;> exact absurd e (by simp)

theorem narrowF64_st {st : SymbolTable} {v : FloatVal} {hTy : Ty} {st2 : SymbolTable}
    {p : Lit × Ty} (e : narrowF64 st v hTy = .ok st2 p) : st2 = st := by
  unfold narrowF64 at e
  split at e <;> (try (injection e with h1 h2; exact h1.symm))
    <;> exact absurd e (by simp)

theorem binopFinish_st {st : SymbolTable} {op : Op} {clhs : AstNode} {lTy : Ty}
    {crhs : AstNode} {rTy : Ty} {st2 : SymbolTable} {v : AstNode}
    (e : binopFinish st op clhs lTy crhs rTy = .ok st2 v) : st2 = st := by
  unfold binopFinish at e
  split at e
  · exact absurd e (by simp)
  · split at e
    · exact absurd e (by simp)
    · injection e with h1 h2; exact h1.symm

theorem fnFinish2_st {st : SymbolTable} {proto2 : Proto} {fnEntry : Symbol}
    {bodyNode : AstNode} {bodyTy : Ty} {st2 : SymbolTable} {v : AstNode}
    (e : fnFinish2 st proto2 fnEntry bodyNode bodyTy = .ok st2 v) :
    st2 = st.leaveScope := by
  unfold fnFinish2 at e
  split at e
  · split at e
    · exact absurd e (by simp)
    · injection e with h1 h2; exact h1.symm
  · exact absurd e (by simp)

theorem fnFinish_st {st : SymbolTable} {proto : Proto} {fnEntry : Symbol}
    {bodyNode : AstNode} {bodyTy : Ty} {st2 : SymbolTable} {v : AstNode}
    (e : fnFinish st proto fnEntry bodyNode bodyTy = .ok st2 v) :
    st2 = st.leaveScope := by
  unfold fnFinish at e
  split at e
  · split at e
    · exact absurd e (by simp)
    · exact fnFinish2_st e
  · split at e
    · exact fnFinish2_st e
    · exact absurd e (by simp)

/-! ## Scope discipline of the checker (claim C2)

Every `enter_scope` performed by `visit_fn`, `visit_for` and `visit_block`
is matched by a `leave_scope` on the success path, and those are the only
scope operations, so a run that returns `Ok` ends at the depth it started.
The early `return Err(...)` paths skip `leave_scope`, which is why the
statement is about `ok` outcomes only (a counterexample for errors is
separate). -/

theorem depthMaster : ∀ fuel : Nat,
    (∀ st hint node st2 v, 0 < st.depth →
      checkNode fuel st hint node = .ok st2 v → st2.depth = st.depth)
    ∧ (∀ st l th st2 p, 0 < st.depth →
      checkLitArray fuel st l th = .ok st2 p → st2.depth = st.depth)
    ∧ (∀ st ty els st2 v, 0 < st.depth →
      checkElems fuel st ty els = .ok st2 v → st2.depth = st.depth)
    ∧ (∀ st nodes st2 v, 0 < st.depth →
      checkSeq fuel st nodes = .ok st2 v → st2.depth = st.depth)
    ∧ (∀ st ftys args st2 v, 0 < st.depth →
      checkArgs fuel st ftys args = .ok st2 v → st2.depth = st.depth)
    ∧ (∀ st name init antn caller st2 v, 0 < st.depth →
      checkVarInit fuel st name init antn caller = .ok st2 v → st2.depth = st.depth) := by
  intro fuel
  induction fuel with
  | zero =>
    refine ⟨?_, ?_, ?_, ?_, ?_, ?_⟩
    · intro st hint node st2 v _ h; simp [checkNode] at h
    · intro st l th st2 p _ h; simp [checkLitArray] at h
    · intro st ty els st2 v _ h; simp [checkElems] at h
    · intro st nodes st2 v _ h; simp [checkSeq] at h
    · intro st ftys args st2 v _ h; simp [checkArgs] at h
    · intro st name init antn caller st2 v _ h; simp [checkVarInit] at h
  | succ n ih =>
    obtain ⟨ihN, ihA, ihE, ihS, ihG, ihV⟩ := ih
    refine ⟨?_, ?_, ?_, ?_, ?_, ?_⟩
    · -- checkNode
      intro st hint node st2 v hd h
      cases node with
      | lit val tyf =>
        cases hint with
        | some hTy =>
          cases val <;> simp only [checkNode] at h
          case uint64L nn =>
            obtain ⟨s1, p, h1, h2⟩ := Res.bind_ok h
            try simp only [] at h2
            injection h2 with h3 _
            rw [← h3, narrowU64_st h1]
          case floatL f =>
            obtain ⟨s1, p, h1, h2⟩ := Res.bind_ok h
            try simp only [] at h2
            injection h2 with h3 _
            rw [← h3, narrowF64_st h1]
          case arrayL els ity =>
            obtain ⟨s1, p, h1, h2⟩ := Res.bind_ok h
            try simp only [] at h2
            injection h2 with h3 _
            rw [← h3, ihA st _ _ s1 p hd h1]
          all_goals (injection h with h1 _; rw [← h1])
        | none =>
          cases val <;> simp only [checkNode] at h
          case int32L nn => injection h with h1 _; rw [← h1]
          case uint64L nn =>
            split at h
            · injection h with h1 _; rw [← h1]
            · exact absurd h (by simp)
          case floatL f => injection h with h1 _; rw [← h1]
          case boolL b => injection h with h1 _; rw [← h1]
          case charL c => injection h with h1 _; rw [← h1]
          case arrayL els ity =>
            obtain ⟨s1, p, h1, h2⟩ := Res.bind_ok h
            try simp only [] at h2
            injection h2 with h3 _
            rw [← h3, ihA st _ _ s1 p hd h1]
          all_goals exact absurd h (by simp)
      | ident name tyf =>
        simp only [checkNode] at h
        split at h
        · exact absurd h (by simp)
        · split at h
          · injection h with h1 _; rw [← h1]
          · exact absurd h (by simp)
      | binop op lhs rhs tyf =>
        simp only [checkNode] at h
        split at h
        · exact absurd h (by simp)
        · split at h
          · obtain ⟨s1, crhs, h1, h2⟩ := Res.bind_ok h
            try simp only [] at h2
            obtain ⟨s2, clhs, h3, h4⟩ := Res.bind_ok h2
            try simp only [] at h4
            have e1 := ihN st none rhs s1 crhs hd h1
            have e2 := ihN s1 _ lhs s2 clhs (by rw [e1]; exact hd) h3
            rw [binopFinish_st h4, e2, e1]
          · obtain ⟨s1, clhs, h1, h2⟩ := Res.bind_ok h
            try simp only [] at h2
            obtain ⟨s2, crhs, h3, h4⟩ := Res.bind_ok h2
            try simp only [] at h4
            have e1 := ihN st none lhs s1 clhs hd h1
            have e2 := ihN s1 _ rhs s2 crhs (by rw [e1]; exact hd) h3
            rw [binopFinish_st h4, e2, e1]
      | unop op rhs tyf =>
        simp only [checkNode] at h
        obtain ⟨s1, crhs, h1, h2⟩ := Res.bind_ok h
        try simp only [] at h2
        have e1 := ihN st none rhs s1 crhs hd h1
        split at h2
        · injection h2 with h3 _; rw [← h3, e1]
        · exact absurd h2 (by simp)
      | call name args tyf =>
        simp only [checkNode] at h
        split at h
        · exact absurd h (by simp)
        · split at h
          · split at h
            · exact absurd h (by simp)
            · obtain ⟨s1, cargs, h1, h2⟩ := Res.bind_ok h
              try simp only [] at h2
              have e1 := ihG st _ args s1 cargs hd h1
              split at h2
              · exact absurd h2 (by simp)
              · injection h2 with h3 _; rw [← h3, e1]
          · exact absurd h (by simp)
      | index binding idx tyf =>
        simp only [checkNode] at h
        obtain ⟨s1, cbind, h1, h2⟩ := Res.bind_ok h
        try simp only [] at h2
        have e1 := ihN st none binding s1 cbind hd h1
        split at h2
        · obtain ⟨s2, cidx, h3, h4⟩ := Res.bind_ok h2
          try simp only [] at h4
          have e2 := ihN s1 _ idx s2 cidx (by rw [e1]; exact hd) h3
          split at h4
          · exact absurd h4 (by simp)
          · split at h4
            · exact absurd h4 (by simp)
            · injection h4 with h5 _; rw [← h5, e2, e1]
        · exact absurd h2 (by simp)
      | cond c tb eb tyf =>
        simp only [checkNode] at h
        obtain ⟨s1, cc, h1, h2⟩ := Res.bind_ok h
        try simp only [] at h2
        have e1 := ihN st none c s1 cc hd h1
        split at h2
        · exact absurd h2 (by simp)
        · obtain ⟨s2, ctb, h3, h4⟩ := Res.bind_ok h2
          try simp only [] at h4
          have e2 := ihN s1 none tb s2 ctb (by rw [e1]; exact hd) h3
          split at h4
          · injection h4 with h5 _; rw [← h5, e2, e1]
          · obtain ⟨s3, ce, h6, h7⟩ := Res.bind_ok h4
            try simp only [] at h7
            have e3 := ihN s2 _ _ s3 ce (by rw [e2, e1]; exact hd) h6
            split at h7
            · exact absurd h7 (by simp)
            · injection h7 with h8 _; rw [← h8, e3, e2, e1]
      | block list tyf =>
        simp only [checkNode] at h
        obtain ⟨s1, cl, h1, h2⟩ := Res.bind_ok h
        try simp only [] at h2
        have e1 := ihS _ list s1 cl
          (by rw [SymbolTable.enterScope_depth]; omega) h1
        injection h2 with h3 _
        rw [← h3, SymbolTable.leaveScope_depth, e1, SymbolTable.enterScope_depth]
        omega
      | forStmt sName sAntn sExpr condE stepE body =>
        simp only [checkNode] at h
        have hdIns : 0 < ((st.enterScope).insert (Symbol.newVar sName sAntn)).depth := by
          rw [SymbolTable.insert_depth (by rw [SymbolTable.enterScope_depth]; omega),
            SymbolTable.enterScope_depth]
          omega
        obtain ⟨s1, sE, h1, h2⟩ := Res.bind_ok h
        try simp only [] at h2
        have e1 := ihV _ sName sExpr sAntn _ s1 sE hdIns h1
        obtain ⟨s2, cCond, h3, h4⟩ := Res.bind_ok h2
        try simp only [] at h4
        have e2 := ihN s1 none condE s2 cCond (by rw [e1]; exact hdIns) h3
        split at h4
        · exact absurd h4 (by simp)
        · obtain ⟨s3, cStep, h5, h6⟩ := Res.bind_ok h4
          try simp only [] at h6
          have e3 := ihN s2 _ stepE s3 cStep (by rw [e2, e1]; exact hdIns) h5
          split at h6
          · exact absurd h6 (by simp)
          · obtain ⟨s4, cBody, h7, h8⟩ := Res.bind_ok h6
            try simp only [] at h8
            have e4 := ihN s3 none body s4 cBody (by rw [e3, e2, e1]; exact hdIns) h7
            injection h8 with h9 _
            rw [← h9, SymbolTable.leaveScope_depth, e4, e3, e2, e1,
              SymbolTable.insert_depth (by rw [SymbolTable.enterScope_depth]; omega),
              SymbolTable.enterScope_depth]
            omega
      | letStmt name antn init =>
        simp only [checkNode] at h
        have hdIns : 0 < (st.insert (Symbol.newVar name antn)).depth := by
          rw [SymbolTable.insert_depth hd]; exact hd
        obtain ⟨s1, initN, h1, h2⟩ := Res.bind_ok h
        try simp only [] at h2
        have e1 := ihV _ name init antn _ s1 initN hdIns h1
        injection h2 with h3 _
        rw [← h3, e1, SymbolTable.insert_depth hd]
      | fnStmt proto body =>
        simp only [checkNode] at h
        split at h
        · exact absurd h (by simp)
        · split at h
          · injection h with h1 _; rw [← h1]
          · obtain ⟨s1, bodyN, h1, h2⟩ := Res.bind_ok h
            try simp only [] at h2
            have hdi : 0 < (insertArgs (st.enterScope) proto.args).depth := by
              rw [insertArgs_depth (by rw [SymbolTable.enterScope_depth]; omega),
                SymbolTable.enterScope_depth]
              omega
            have e1 := ihN _ none _ s1 bodyN hdi h1
            rw [fnFinish_st h2, SymbolTable.leaveScope_depth, e1,
              insertArgs_depth (by rw [SymbolTable.enterScope_depth]; omega),
              SymbolTable.enterScope_depth]
            omega
      | structStmt name fields methods =>
        simp only [checkNode] at h
        obtain ⟨s1, cf, h1, h2⟩ := Res.bind_ok h
        try simp only [] at h2
        obtain ⟨s2, cm, h3, h4⟩ := Res.bind_ok h2
        try simp only [] at h4
        have e1 := ihS st fields s1 cf hd h1
        have e2 := ihS s1 methods s2 cm (by rw [e1]; exact hd) h3
        injection h4 with h5 _
        rw [← h5, e2, e1]
    · -- checkLitArray
      intro st l th st2 p hd h
      simp only [checkLitArray] at h
      split at h
      · split at h
        · exact absurd h (by simp)
        · split at h
          · split at h
            · exact absurd h (by simp)
            · obtain ⟨s1, chkd, h1, h2⟩ := Res.bind_ok h
              try simp only [] at h2
              injection h2 with h3 _
              rw [← h3, ihE st _ _ s1 chkd hd h1]
          · exact absurd h (by simp)
      · exact absurd h (by simp)
    · -- checkElems
      intro st ty els st2 v hd h
      simp only [checkElems] at h
      split at h
      · injection h with h1 _; rw [← h1]
      · obtain ⟨s1, elN, h1, h2⟩ := Res.bind_ok h
        try simp only [] at h2
        have e1 := ihN st _ _ s1 elN hd h1
        split at h2
        · exact absurd h2 (by simp)
        · obtain ⟨s2, chkd, h3, h4⟩ := Res.bind_ok h2
          try simp only [] at h4
          have e2 := ihE s1 ty _ s2 chkd (by rw [e1]; exact hd) h3
          injection h4 with h5 _
          rw [← h5, e2, e1]
    · -- checkSeq
      intro st nodes st2 v hd h
      simp only [checkSeq] at h
      split at h
      · injection h with h1 _; rw [← h1]
      · obtain ⟨s1, cn, h1, h2⟩ := Res.bind_ok h
        try simp only [] at h2
        have e1 := ihN st _ _ s1 cn hd h1
        obtain ⟨s2, crest, h3, h4⟩ := Res.bind_ok h2
        try simp only [] at h4
        have e2 := ihS s1 _ s2 crest (by rw [e1]; exact hd) h3
        injection h4 with h5 _
        rw [← h5, e2, e1]
    · -- checkArgs
      intro st ftys args st2 v hd h
      simp only [checkArgs] at h
      split at h
      · obtain ⟨s1, ca, h1, h2⟩ := Res.bind_ok h
        try simp only [] at h2
        have e1 := ihN st _ _ s1 ca hd h1
        obtain ⟨s2, cas, h3, h4⟩ := Res.bind_ok h2
        try simp only [] at h4
        have e2 := ihG s1 _ _ s2 cas (by rw [e1]; exact hd) h3
        injection h4 with h5 _
        rw [← h5, e2, e1]
      · injection h with h1 _; rw [← h1]
    · -- checkVarInit
      intro st name init antn caller st2 v hd h
      simp only [checkVarInit] at h
      split at h
      · obtain ⟨s1, iN, h1, h2⟩ := Res.bind_ok h
        try simp only [] at h2
        have e1 := ihN st _ _ s1 iN hd h1
        split at h2
        · exact absurd h2 (by simp)
        · injection h2 with h3 _; rw [← h3, e1]
      · split at h
        · exact absurd h (by simp)
        · injection h with h3 _; rw [← h3]

/-! ## Helper lemmas for call checking -/

theorem checkArgs_ok_length : ∀ (fuel : Nat) (st : SymbolTable) (ftys : List Ty)
    (args : List AstNode) (st2 : SymbolTable) (out : List AstNode),
    checkArgs fuel st ftys args = Res.ok st2 out →
    out.length = min ftys.length args.length := by
  intro fuel
  induction fuel with
  | zero => intro st ftys args st2 out h; simp [checkArgs] at h
  | succ n ih =>
    intro st ftys args st2 out h
    simp only [checkArgs] at h
    split at h
    · obtain ⟨s1, ca, h1, h2⟩ := Res.bind_ok h
      try simp only [] at h2
      obtain ⟨s2, cas, h3, h4⟩ := Res.bind_ok h2
      injection h4 with h5 h6
      rw [← h6]
      simp [ih _ _ _ _ _ h3, Nat.succ_min_succ]
    · injection h with h5 h6
      rename_i heq
      rw [← h6]
      rcases ftys with _ | ⟨f, fs⟩
      · simp
      · rcases args with _ | ⟨a, rest⟩
        · simp
        · exact (heq f fs a rest rfl rfl).elim

theorem argsMismatch_none_forall2 (name : String) :
    ∀ (ftys : List Ty) (cargs : List AstNode) (idx : Nat),
    ftys.length = cargs.length → argsMismatch name ftys cargs idx = none →
    List.Forall₂ (fun (faTy : Ty) (ca : AstNode) => tyD ca.ty = faTy) ftys cargs := by
  intro ftys
  induction ftys with
  | nil =>
    intro cargs idx hl _
    cases cargs
    · exact List.Forall₂.nil
    · simp at hl
  | cons f fs ih =>
    intro cargs idx hl h
    cases cargs with
    | nil => simp at hl
    | cons c cs =>
      simp only [argsMismatch] at h
      split at h
      · simp at h
      · rename_i hne
        exact List.Forall₂.cons (not_not.mp hne).symm (ih cs (idx + 1) (by simpa using hl) h)

/-! ## The claims -/

/-- Claim C1, corrected.  An array literal checked with no type hint in
effect does not make the checker return an error result: `visit_lit`
hands it to `check_lit_array` with a `None` hint, whose `ty_hint.unwrap()`
panics, aborting the process — for every element list and inner-type
annotation. -/
theorem c1_array_lit_no_hint_panics (fuel : Nat) (st : SymbolTable)
    (els : List AstNode) (ity : Option Ty) (tyf : Option Ty) :
    checkNode (fuel + 2) st none (.lit (.arrayL els ity) tyf)
      = Res.panic st "called Option::unwrap() on a None value" := by
  simp [checkNode, checkLitArray, Res.bind]

/-- Claim C1 counterexample: checking the empty array literal with no hint
ends in a panic outcome (a Rust process abort), not the error result the
claim asserts. -/
theorem c1_array_lit_no_hint_counter :
    checkNode 5 SymbolTable.new none (.lit (.arrayL [] none) none)
      = Res.panic SymbolTable.new "called Option::unwrap() on a None value" := rfl

/-- Claim C2, amended.  Every run of the type checker that returns
successfully ends with the symbol-table scope-stack depth it began with
(for any starting table that has at least its global scope), both for a
single node and for a whole AST walked by `TypeChecker::walk`.  Runs that
stop at the first error are excluded: the early `return Err` paths of
`visit_fn`, `visit_for` and `visit_block` skip `leave_scope`
(see the counterexample). -/
theorem c2_ok_run_preserves_depth (fuel : Nat) (st : SymbolTable) (hd : 0 < st.depth) :
    (∀ hint node st2 v, checkNode fuel st hint node = Res.ok st2 v →
      st2.depth = st.depth)
    ∧ (∀ nodes st2 v, walkChecker fuel st nodes = Res.ok st2 v →
      st2.depth = st.depth) := by
  constructor
  · intro hint node st2 v h
    exact (depthMaster fuel).1 st hint node st2 v hd h
  · intro nodes st2 v h
    exact (depthMaster fuel).2.2.2.1 st nodes st2 v hd h

/-- Witness for claim C2's theorem at a concrete successful run. -/
theorem c2_depth_witness :
    0 < SymbolTable.new.depth
    ∧ checkNode 5 SymbolTable.new none (.lit (.boolL true) none)
        = Res.ok SymbolTable.new (.lit (.boolL true) (some .bool))
    ∧ SymbolTable.new.depth = SymbolTable.new.depth :=
  ⟨by decide, rfl,
    (c2_ok_run_preserves_depth 5 SymbolTable.new (by decide)).1 none
      (.lit (.boolL true) none) SymbolTable.new (.lit (.boolL true) (some .bool)) rfl⟩

/-- Claim C2 counterexample: a run that stops at the first error (an
unknown identifier inside a block) ends one scope deeper than it began —
`visit_block`'s `enter_scope` has no matching `leave_scope` on the error
path. -/
theorem c2_error_run_changes_depth :
    checkNode 9 SymbolTable.new none (.block [.ident "nope" none] none)
      = Res.error SymbolTable.new.enterScope "Unknown variable: `nope`"
    ∧ SymbolTable.new.enterScope.depth ≠ SymbolTable.new.depth :=
  ⟨rfl, by decide⟩

/-- Claim C3, corrected.  For every binary operation node other than an
assignment with a non-identifier, non-index LHS (which fails before
either side is checked): if the LHS is a numeric literal — whether or not
the RHS is one too — the RHS is checked first with no hint and then the
LHS with the RHS's type as hint; otherwise the LHS is checked first with
no hint and then the RHS with the LHS's type as hint; afterwards the two
sides' types must be equal or the checker fails
(`visitBinopAmended` spells this out, `binopFinish` included). -/
theorem c3_binop_order_amended (fuel : Nat) (st : SymbolTable) (op : Op)
    (lhs rhs : AstNode) (tyf : Option Ty) (hint : Option Ty)
    (hno : ¬(op = Op.assign ∧ lhs.isAssignable = false)) :
    checkNode (fuel + 1) st hint (.binop op lhs rhs tyf)
      = visitBinopAmended fuel st op lhs rhs := by
  simp only [checkNode, visitBinopAmended]
  rw [if_neg hno]

/-- Witness for claim C3's theorem at a concrete binary operation. -/
theorem c3_binop_order_witness :
    ¬(Op.add = Op.assign ∧ (AstNode.lit (Lit.uint64L 1) none).isAssignable = false)
    ∧ checkNode 4 SymbolTable.new none
        (.binop .add (.lit (.uint64L 1) none) (.lit (.uint64L 2) none) none)
      = visitBinopAmended 3 SymbolTable.new .add (.lit (.uint64L 1) none)
          (.lit (.uint64L 2) none) :=
  ⟨by decide,
    c3_binop_order_amended 3 SymbolTable.new .add (.lit (.uint64L 1) none)
      (.lit (.uint64L 2) none) none none (by decide)⟩

/-- Claim C3 counterexample: with two numeric literals `2 + 1.5` the
checker checks the RHS first (so the float fixes the hint and the integer
is rejected as "integer in a float context"), while the claim's
procedure (`visitBinopClaim`, LHS first when both sides are literals)
would reject the float as "float in an integer context" — observably
different outcomes on the same node. -/
theorem c3_both_literal_order_counter :
    checkNode 9 SymbolTable.new none
        (.binop .add (.lit (.uint64L 2) none) (.lit (.floatL ⟨3, 2⟩) none) none)
      = Res.error SymbolTable.new "Literal is an integer in a float context"
    ∧ visitBinopClaim 9 SymbolTable.new .add (.lit (.uint64L 2) none)
        (.lit (.floatL ⟨3, 2⟩) none)
      = Res.error SymbolTable.new "Literal is a float in an integer context"
    ∧ ("Literal is an integer in a float context" : String)
        ≠ "Literal is a float in an integer context" :=
  ⟨rfl, rfl, by decide⟩

/-- Claim C4, amended.  For every unsigned 64-bit literal value `v`
checked with an *integer* type hint of width `W` (`i8..u64`): if `v` fits
in `W` the result is a literal retagged to `W` whose value still equals
`v`; if it does not fit, checking fails with `Numeric literal out of
range`.  A *float* hint does not narrow an integer literal at all — it is
rejected (see the counterexample), which is why the claim's "numeric
hint" must shrink to integer hints. -/
theorem c4_int_hint_narrowing_roundtrip (fuel : Nat) (st : SymbolTable) (v : Nat)
    (w : Ty) (m : Nat) (hw : intWidthMax w = some m) (hv : v < 18446744073709551616) :
    (v ≤ m →
      checkNode (fuel + 1) st (some w) (.lit (.uint64L v) none)
        = Res.ok st (.lit (narrowedLit w v) (some w))
      ∧ (narrowedLit w v).natValue = some v)
    ∧ (m < v →
      checkNode (fuel + 1) st (some w) (.lit (.uint64L v) none)
        = Res.error st "Numeric literal out of range") := by
  cases w <;> simp only [intWidthMax, Option.some.injEq, reduceCtorEq] at hw <;>
    subst hw <;> constructor
  all_goals intro h
  all_goals try exact ⟨by simp [checkNode, narrowU64, Res.bind, h, narrowedLit],
    by simp [narrowedLit, Lit.natValue]⟩
  all_goals try (simp [checkNode, narrowU64, Res.bind, Nat.not_le.mpr h])
  omega

/-- Witness for claim C4's theorem: `7` fits `int8`, `300` does not. -/
theorem c4_narrowing_witness :
    checkNode 1 SymbolTable.new (some .int8) (.lit (.uint64L 7) none)
      = Res.ok SymbolTable.new (.lit (.int8L 7) (some .int8))
    ∧ checkNode 1 SymbolTable.new (some .int8) (.lit (.uint64L 300) none)
      = Res.error SymbolTable.new "Numeric literal out of range" :=
  ⟨((c4_int_hint_narrowing_roundtrip 0 SymbolTable.new 7 .int8 127 rfl (by decide)).1
      (by decide)).1,
    (c4_int_hint_narrowing_roundtrip 0 SymbolTable.new 300 .int8 127 rfl (by decide)).2
      (by decide)⟩

/-- Claim C4 counterexample: the value `1` fits the hinted float width,
yet the checker rejects the literal instead of narrowing it, so the
claim's round-trip fails for float hints. -/
theorem c4_float_hint_counter :
    checkNode 5 SymbolTable.new (some .float) (.lit (.uint64L 1) none)
      = Res.error SymbolTable.new "Literal is an integer in a float context" := rfl

/-- Claim C5, amended.  When checking a function named `main` whose body
is present *and whose body checks successfully*: a declared return type
other than `Void` fails with `main()'s return value shouldn't be
annotated. Found `<type>``; with a `Void` annotation the prototype's
return type is (re)set to `Void` and the body's type is never compared
against the return type.  A body that fails to check reports the body's
own error first (see the counterexample), so the claim's unconditional
"checking fails with the message" needed the body-success proviso. -/
theorem c5_main_annotation_amended (fuel : Nat) (st : SymbolTable)
    (args : List (String × Ty)) (retAnn : Ty) (fa : List (String × Ty)) (fr : Ty)
    (fe : Bool) (body bodyNode : AstNode) (st1 : SymbolTable)
    (hget : st.get "main" = some ⟨"main", .fnD fa fr fe⟩)
    (hbody : checkNode fuel (insertArgs (st.enterScope) args) none body
      = Res.ok st1 bodyNode) :
    (retAnn ≠ .void →
      checkNode (fuel + 1) st none (.fnStmt ⟨"main", args, retAnn⟩ (some body))
        = Res.error st1 ("main()'s return value shouldn't be annotated. Found `"
            ++ retAnn.display ++ "`"))
    ∧ (retAnn = .void →
      checkNode (fuel + 1) st none (.fnStmt ⟨"main", args, retAnn⟩ (some body))
        = Res.ok st1.leaveScope (.fnStmt ⟨"main", args, .void⟩ (some bodyNode))) := by
  constructor <;> intro hret
  · simp [checkNode, hget, hbody, Res.bind, fnFinish, hret]
  · subst hret
    simp [checkNode, hget, hbody, Res.bind, fnFinish, fnFinish2]

/-- Witness for claim C5's theorem: `fn main() -> int32 { true }` with a
well-checking body yields exactly the annotation error. -/
theorem c5_main_witness :
    checkNode 4 (SymbolTable.new.insert ⟨"main", .fnD [] .int32 false⟩) none
        (.fnStmt ⟨"main", [], .int32⟩ (some (.lit (.boolL true) none)))
      = Res.error ((SymbolTable.new.insert ⟨"main", .fnD [] .int32 false⟩).enterScope)
          "main()'s return value shouldn't be annotated. Found `int32`" :=
  (c5_main_annotation_amended 3 (SymbolTable.new.insert ⟨"main", .fnD [] .int32 false⟩)
      [] .int32 [] .int32 false (.lit (.boolL true) none)
      (.lit (.boolL true) (some .bool))
      ((SymbolTable.new.insert ⟨"main", .fnD [] .int32 false⟩).enterScope)
      rfl rfl).1 (by decide)

/-- Claim C5 counterexample: `fn main() -> int32 { nope }` — the return
type is annotated non-`Void`, yet checking fails with the body's
`Unknown variable` error, not the message the claim promises, because
`visit_fn` checks the body before looking at `main`'s annotation. -/
theorem c5_body_error_counter :
    checkNode 9 (SymbolTable.new.insert ⟨"main", .fnD [] .int32 false⟩) none
        (.fnStmt ⟨"main", [], .int32⟩ (some (.ident "nope" none)))
      = Res.error ((SymbolTable.new.insert ⟨"main", .fnD [] .int32 false⟩).enterScope)
          "Unknown variable: `nope`"
    ∧ "Unknown variable: `nope`"
        ≠ "main()'s return value shouldn't be annotated. Found `int32`" :=
  ⟨rfl, by decide⟩

/-- Claim C6, confirmed.  For every call node: an unknown callee fails
with `Call to undefined function`; a known function symbol with the wrong
argument count fails with exactly ``Call to `<name>()` takes <N> args and
<M> were given``; and on success each argument was checked against the
callee's formal parameter types (each checked argument's type equals the
corresponding formal's type) and the call node's type is the function's
declared return type. -/
theorem c6_call_checking (fuel : Nat) (st : SymbolTable) (name : String)
    (args : List AstNode) (tyf : Option Ty) (hint : Option Ty) :
    (st.get name = none →
      checkNode (fuel + 1) st hint (.call name args tyf)
        = Res.error st ("Call to undefined function: `" ++ name ++ "`"))
    ∧ (∀ sname fargs retTy ext, st.get name = some ⟨sname, .fnD fargs retTy ext⟩ →
        fargs.length ≠ args.length →
        checkNode (fuel + 1) st hint (.call name args tyf)
          = Res.error st ("Call to `" ++ name ++ "()` takes " ++ toString fargs.length
              ++ " args and " ++ toString args.length ++ " were given"))
    ∧ (∀ sname fargs retTy ext st2 node2,
        st.get name = some ⟨sname, .fnD fargs retTy ext⟩ →
        checkNode (fuel + 1) st hint (.call name args tyf) = Res.ok st2 node2 →
        ∃ cargs, node2 = .call name cargs (some retTy)
          ∧ List.Forall₂ (fun (faTy : Ty) (ca : AstNode) => tyD ca.ty = faTy)
              (fargs.map Prod.snd) cargs) := by
  refine ⟨?_, ?_, ?_⟩
  · intro hget
    simp [checkNode, hget]
  · intro sname fargs retTy ext hget hlen
    simp [checkNode, hget, hlen]
  · intro sname fargs retTy ext st2 node2 hget h
    simp only [checkNode, hget] at h
    split at h
    · exact absurd h (by simp)
    · rename_i hlen
      obtain ⟨s1, cargs, h1, h2⟩ := Res.bind_ok h
      try simp only [] at h2
      split at h2
      · exact absurd h2 (by simp)
      · rename_i hmm
        injection h2 with h3 h4
        refine ⟨cargs, h4.symm, ?_⟩
        have hl := checkArgs_ok_length _ _ _ _ _ _ h1
        have hlen2 : (fargs.map Prod.snd).length = cargs.length := by
          simp only [List.length_map] at hlen hl ⊢
          omega
        exact argsMismatch_none_forall2 name _ _ 0 hlen2 hmm

/-- Witness for claim C6's theorem: the spec example
`fn f(a: int32, b: int32) -> int32` called as `f(1)`. -/
theorem c6_call_witness :
    checkNode 9
        (SymbolTable.new.insert ⟨"f", .fnD [("a", .int32), ("b", .int32)] .int32 false⟩)
        none (.call "f" [.lit (.uint64L 1) none] none)
      = Res.error
          (SymbolTable.new.insert ⟨"f", .fnD [("a", .int32), ("b", .int32)] .int32 false⟩)
          "Call to `f()` takes 2 args and 1 were given" :=
  (c6_call_checking 8
      (SymbolTable.new.insert ⟨"f", .fnD [("a", .int32), ("b", .int32)] .int32 false⟩)
      "f" [.lit (.uint64L 1) none] none none).2.1
    "f" [("a", .int32), ("b", .int32)] .int32 false rfl (by decide)

/-- Claim C7: the in-repo lexer test `test_lexer_full` expects the
integer literals `4`, `36` and `434` to come out as tokens carrying
*float* payloads (`Int(4.0)` etc., embedded here as `FloatVal`), which
contradicts the claim's (and the spec's) unsigned-64-bit token payload —
the type checker's own `UInt64`-based narrowing sides with the claim, so
the stale test is the slip (code_bug). -/
theorem c7_lexer_test_int_tokens_carry_floats :
    testLexerFullExpected.get? 22 = some (.int ⟨4, 1⟩)
    ∧ testLexerFullExpected.get? 40 = some (.int ⟨36, 1⟩)
    ∧ testLexerFullExpected.get? 42 = some (.int ⟨434, 1⟩) :=
  ⟨rfl, rfl, rfl⟩

/-- Claim C8, confirmed.  `Type::resolve_type` maps the thirteen
primitive names to their variants, `int`/`uint` to `Int32`/`UInt32`,
every other string to `Comp` of itself, and the default `Type` is
`Void`. -/
theorem c8_resolve_type_table :
    (∀ s, s ∉ primTypeNames → Ty.resolveType s = .comp s)
    ∧ Ty.resolveType "int8" = .int8 ∧ Ty.resolveType "int16" = .int16
    ∧ Ty.resolveType "int32" = .int32 ∧ Ty.resolveType "int64" = .int64
    ∧ Ty.resolveType "uint8" = .uint8 ∧ Ty.resolveType "uint16" = .uint16
    ∧ Ty.resolveType "uint32" = .uint32 ∧ Ty.resolveType "uint64" = .uint64
    ∧ Ty.resolveType "float" = .float ∧ Ty.resolveType "double" = .double
    ∧ Ty.resolveType "bool" = .bool ∧ Ty.resolveType "char" = .char
    ∧ Ty.resolveType "void" = .void ∧ Ty.resolveType "int" = .int32
    ∧ Ty.resolveType "uint" = .uint32
    ∧ Ty.defaultTy = .void := by
  refine ⟨?_, rfl, rfl, rfl, rfl, rfl, rfl, rfl, rfl, rfl, rfl, rfl, rfl, rfl, rfl, rfl, rfl⟩
  intro s hs
  simp only [primTypeNames, List.mem_cons, List.not_mem_nil, or_false, not_or] at hs
  obtain ⟨h1, h2, h3, h4, h5, h6, h7, h8, h9, h10, h11, h12, h13, h14, h15⟩ := hs
  simp [Ty.resolveType, h1, h2, h3, h4, h5, h6, h7, h8, h9, h10, h11, h12, h13, h14, h15]

/-- Witness for claim C8's theorem: the capitalized name `Int32` is no
primitive and resolves to a composite, matching the crate's own unit
test. -/
theorem c8_resolve_witness : Ty.resolveType "Int32" = .comp "Int32" :=
  c8_resolve_type_table.1 "Int32" (by decide)

/-- Claim C9, confirmed.  For every identifier node: if the name resolves
to a symbol that is not a variable, `visit_ident` produces no error
result — `Symbol::ty` hits the `unreachable!` panic `expected symbol to
be a variable`; the `Unknown variable` error is produced exactly when the
name is absent from every scope. -/
theorem c9_ident_nonvariable_panics (fuel : Nat) (st : SymbolTable) (hint : Option Ty)
    (name : String) (tyf : Option Ty) :
    (st.get name = none →
      checkNode (fuel + 1) st hint (.ident name tyf)
        = Res.error st ("Unknown variable: `" ++ name ++ "`"))
    ∧ (∀ sym, st.get name = some sym → (∀ t, sym.data ≠ AssocData.varD t) →
      checkNode (fuel + 1) st hint (.ident name tyf)
        = Res.panic st "expected symbol to be a variable") := by
  constructor
  · intro hget
    simp [checkNode, hget]
  · intro sym hget hnv
    cases hdata : sym.data with
    | varD t => exact absurd hdata (hnv t)
    | fnD a r e => simp [checkNode, hget, hdata]
    | structD f m => simp [checkNode, hget, hdata]
    | typeD => simp [checkNode, hget, hdata]

/-- Witness for claim C9's theorem: a function symbol `f` in scope makes
`f` as an identifier panic, while an unbound `g` gets the error. -/
theorem c9_ident_witness :
    checkNode 1 (SymbolTable.new.insert ⟨"f", .fnD [] .void false⟩) none (.ident "f" none)
      = Res.panic (SymbolTable.new.insert ⟨"f", .fnD [] .void false⟩)
          "expected symbol to be a variable"
    ∧ checkNode 1 (SymbolTable.new.insert ⟨"f", .fnD [] .void false⟩) none (.ident "g" none)
      = Res.error (SymbolTable.new.insert ⟨"f", .fnD [] .void false⟩)
          "Unknown variable: `g`" :=
  ⟨(c9_ident_nonvariable_panics 0 (SymbolTable.new.insert ⟨"f", .fnD [] .void false⟩)
      none "f" none).2 ⟨"f", .fnD [] .void false⟩ rfl (by simp),
    (c9_ident_nonvariable_panics 0 (SymbolTable.new.insert ⟨"f", .fnD [] .void false⟩)
      none "g" none).1 rfl⟩

/-- Claim C10, confirmed.  `visit_let` inserts the declared variable
before checking the initializer, so for every name, every annotation `T`
and every starting table, `let x: T = x` checks successfully and the
self-referencing identifier resolves to type `T`. -/
theorem c10_let_self_reference_ok (fuel : Nat) (st : SymbolTable) (name : String)
    (t : Ty) :
    checkNode (fuel + 3) st none (.letStmt name t (some (.ident name none)))
      = Res.ok (st.insert (Symbol.newVar name t))
          (.letStmt name t (some (.ident name (some t)))) := by
  have hget : (st.insert ⟨name, .varD t⟩).get name = some ⟨name, .varD t⟩ := by
    cases hs : st.scopes <;>
      simp [SymbolTable.insert, SymbolTable.get, scopesGet, scopeFind, hs, List.find?]
  simp [checkNode, checkVarInit, hget, Res.bind, tyD, Symbol.newVar, AstNode.ty]

end Lightc
